import Mathlib

/-!
Shallow embedding of `examples/qr-server/server.py`: a single-file MCP server
exposing one tool (`generate_qr`), one static HTML resource (`view`), and a
transport switch (`--stdio` vs HTTP) configured from environment variables.

Third-party calls (the `qrcode` library's best-fit version search, PIL image
rendering and PNG serialization) are modelled by an abstract record of
library functions `QRLib`; a raised Python exception is modelled as
`Except.error`.  The Python standard-library helpers the file uses
(`str.upper`, `base64.b64encode`, `int`, `os.environ.get`) are modelled
concretely below.
-/

/-- `qrcode.constants.ERROR_CORRECT_M` (15% redundancy). -/
def ERROR_CORRECT_M : Nat := 0

/-- `qrcode.constants.ERROR_CORRECT_L` (7% redundancy). -/
def ERROR_CORRECT_L : Nat := 1

/-- `qrcode.constants.ERROR_CORRECT_H` (30% redundancy). -/
def ERROR_CORRECT_H : Nat := 2

/-- `qrcode.constants.ERROR_CORRECT_Q` (25% redundancy). -/
def ERROR_CORRECT_Q : Nat := 3

/-- Python `str.upper`, restricted to the ASCII letter range
(`Char.toUpper` upcases exactly `a`-`z`). -/
def pyUpper (s : String) : String := String.mk (s.toList.map Char.toUpper)

/-- The `error_levels` dict of `generate_qr` (server.py lines 124-129),
as a partial lookup: `error_levels k = some c` when `k` is a key. -/
def error_levels (k : String) : Option Nat :=
  if k = "L" then some ERROR_CORRECT_L
  else if k = "M" then some ERROR_CORRECT_M
  else if k = "Q" then some ERROR_CORRECT_Q
  else if k = "H" then some ERROR_CORRECT_H
  else none

/-- `error_levels.get(error_correction.upper(), qrcode.constants.ERROR_CORRECT_M)`
(server.py line 133). -/
def resolve_error_correction (error_correction : String) : Nat :=
  (error_levels (pyUpper error_correction)).getD ERROR_CORRECT_M

/-- State of a `qrcode.QRCode` encoder object. -/
structure QRCode where
  version : Nat
  error_correction : Nat
  box_size : Int
  border : Int
  data : List String
deriving DecidableEq, Repr

/-- `qrcode.QRCode(version=..., error_correction=..., box_size=..., border=...)`:
the constructor starts with no data added. -/
def QRCode.init (version error_correction : Nat) (box_size border : Int) : QRCode :=
  { version := version, error_correction := error_correction,
    box_size := box_size, border := border, data := [] }

/-- `qr.add_data(text)`: appends one data segment. -/
def QRCode.add_data (qr : QRCode) (t : String) : QRCode :=
  { qr with data := qr.data ++ [t] }

/-- Abstract interface to the third-party `qrcode`/PIL library, over an
abstract image type `Img`.  `best_fit` is the minimal-version search run by
`qr.make(fit=True)` (it sees the encoder's error-correction level and data);
`make_image` is `qr.make_image(fill_color=..., back_color=...)`;
`save_png` is `img.save(buffer, format="PNG")` followed by
`buffer.getvalue()`, yielding the PNG bytes.  Each call may raise, modelled
as `Except.error`. -/
structure QRLib (Img : Type) where
  best_fit : Nat → List String → Except String Nat
  make_image : QRCode → String → String → Except String Img
  save_png : Img → Except String (List (Fin 256))

/-- `qr.make(fit=True)` (server.py line 138): runs the library's best-fit
version search on the added data and stores the resulting minimal version,
overwriting the initial `version=1`. -/
def QRCode.make_fit {Img : Type} (lib : QRLib Img) (qr : QRCode) : Except String QRCode :=
  match lib.best_fit qr.error_correction qr.data with
  | Except.ok v => Except.ok { qr with version := v }
  | Except.error e => Except.error e

/-- An `mcp.types.ImageContent` record. -/
structure ImageContent where
  type : String
  data : String
  mimeType : String
deriving DecidableEq, Repr

/-- The standard base64 alphabet: index 0-25 map to `A`-`Z`, 26-51 to
`a`-`z`, 52-61 to `0`-`9`, 62 to `+`, 63 to `/`.  Models the alphabet used
by Python's `base64.b64encode`. -/
def b64Char (n : Nat) : Char :=
  if n < 26 then Char.ofNat (65 + n)
  else if n < 52 then Char.ofNat (97 + (n - 26))
  else if n < 62 then Char.ofNat (48 + (n - 52))
  else if n = 62 then Char.ofNat 43
  else Char.ofNat 47

/-- Inverse of the base64 alphabet: the 6-bit value of a base64 character. -/
def b64CharVal (c : Char) : Option Nat :=
  if 65 ≤ c.toNat ∧ c.toNat ≤ 90 then some (c.toNat - 65)
  else if 97 ≤ c.toNat ∧ c.toNat ≤ 122 then some (26 + (c.toNat - 97))
  else if 48 ≤ c.toNat ∧ c.toNat ≤ 57 then some (52 + (c.toNat - 48))
  else if c.toNat = 43 then some 62
  else if c.toNat = 47 then some 63
  else none

/-- Python `base64.b64encode` on a byte string, as the character list of the
resulting ASCII text: 3-byte groups become 4 alphabet characters; a final
1- or 2-byte group is padded with `=`. -/
def b64Encode : List (Fin 256) → List Char
  | b0 :: b1 :: b2 :: rest =>
      b64Char (b0.val / 4) ::
      b64Char (b0.val % 4 * 16 + b1.val / 16) ::
      b64Char (b1.val % 16 * 4 + b2.val / 64) ::
      b64Char (b2.val % 64) :: b64Encode rest
  | [b0, b1] =>
      [b64Char (b0.val / 4), b64Char (b0.val % 4 * 16 + b1.val / 16),
       b64Char (b1.val % 16 * 4), '=']
  | [b0] => [b64Char (b0.val / 4), b64Char (b0.val % 4 * 16), '=', '=']
  | [] => []

/-- Base64 decoding (Python `base64.b64decode` on well-padded input),
returning the byte values; `none` on malformed input. -/
def b64Decode : List Char → Option (List Nat)
  | [] => some []
  | c0 :: c1 :: c2 :: c3 :: rest =>
      if c2 = '=' ∧ c3 = '=' ∧ rest = [] then
        match b64CharVal c0, b64CharVal c1 with
        | some v0, some v1 => some [v0 * 4 + v1 / 16]
        | _, _ => none
      else if c3 = '=' ∧ rest = [] then
        match b64CharVal c0, b64CharVal c1, b64CharVal c2 with
        | some v0, some v1, some v2 =>
            some [v0 * 4 + v1 / 16, v1 % 16 * 16 + v2 / 4]
        | _, _, _ => none
      else
        match b64CharVal c0, b64CharVal c1, b64CharVal c2, b64CharVal c3,
            b64Decode rest with
        | some v0, some v1, some v2, some v3, some tail =>
            some ((v0 * 4 + v1 / 16) :: (v1 % 16 * 16 + v2 / 4) ::
              (v2 % 4 * 64 + v3) :: tail)
        | _, _, _, _, _ => none
  | _ => none

/-- The encoder object built by `generate_qr` before `qr.make(fit=True)`:
`QRCode(version=1, error_correction=resolve(error_correction), box_size,
border)` followed by `qr.add_data(text)` (server.py lines 131-137). -/
def generate_qr_encoder (text : String) (box_size border : Int)
    (error_correction : String) : QRCode :=
  (QRCode.init 1 (resolve_error_correction error_correction) box_size border).add_data text

/-- The `generate_qr` tool (server.py lines 106-144), parametrized by the
third-party library behaviour `lib`.  Defaults are the Python signature's
defaults.  Library faults propagate: the function installs no handler. -/
def generate_qr {Img : Type} (lib : QRLib Img)
    (text : String := "https://modelcontextprotocol.io")
    (box_size : Int := 10) (border : Int := 4)
    (error_correction : String := "M")
    (fill_color : String := "black") (back_color : String := "white") :
    Except String (List ImageContent) :=
  match QRCode.make_fit lib (generate_qr_encoder text box_size border error_correction) with
  | Except.error e => Except.error e
  | Except.ok qr2 =>
    match lib.make_image qr2 fill_color back_color with
    | Except.error e => Except.error e
    | Except.ok img =>
      match lib.save_png img with
      | Except.error e => Except.error e
      | Except.ok png =>
        Except.ok [{ type := "image", data := String.mk (b64Encode png),
                     mimeType := "image/png" }]

/-- Whether a character is stripped by Python `int(str)` before parsing:
ASCII whitespace (space, tab, newline, carriage return, vertical tab,
form feed). -/
def isPySpace (c : Char) : Bool :=
  c.toNat = 32 || c.toNat = 9 || c.toNat = 10 || c.toNat = 13 ||
  c.toNat = 11 || c.toNat = 12

/-- An ASCII decimal digit. -/
def isPyDigit (c : Char) : Bool := 48 ≤ c.toNat && c.toNat ≤ 57

/-- Digit-part of a Python integer literal: digits with single underscores
allowed between digits, accumulated into `acc`.  `none` on a stray
character, a doubled underscore or a trailing underscore. -/
def pyIntDigitsAux : Nat → List Char → Option Nat
  | acc, [] => some acc
  | acc, '_' :: c :: rest =>
      if isPyDigit c then pyIntDigitsAux (acc * 10 + (c.toNat - 48)) rest else none
  | acc, c :: rest =>
      if isPyDigit c then pyIntDigitsAux (acc * 10 + (c.toNat - 48)) rest else none

/-- A nonempty digit-part (first character must be a digit). -/
def pyIntDigits : List Char → Option Nat
  | [] => none
  | c :: rest =>
      if isPyDigit c then pyIntDigitsAux (c.toNat - 48) rest else none

/-- Strip leading and trailing Python whitespace. -/
def pyStrip (cs : List Char) : List Char :=
  ((cs.dropWhile isPySpace).reverse.dropWhile isPySpace).reverse

/-- Python's built-in `int` applied to a string (base 10, ASCII digits):
optional surrounding whitespace, optional sign, nonempty digit-part.
`none` models the `ValueError` raised on anything else. -/
def pyInt (s : String) : Option Int :=
  match pyStrip s.toList with
  | '+' :: rest => (pyIntDigits rest).map Int.ofNat
  | '-' :: rest => (pyIntDigits rest).map (fun n => -(Int.ofNat n))
  | rest => (pyIntDigits rest).map Int.ofNat

/-- `HOST = os.environ.get("HOST", "0.0.0.0")` (server.py line 26); the
process environment is modelled as a partial map from variable names. -/
def HOST (env : String → Option String) : String :=
  (env "HOST").getD "0.0.0.0"

/-- `PORT = int(os.environ.get("PORT", "3001"))` (server.py line 27);
`none` models the unguarded `int` conversion raising `ValueError`. -/
def PORT (env : String → Option String) : Option Int :=
  pyInt ((env "PORT").getD "3001")

/-- Module-level initialization (import time): binds `HOST` and `PORT`
before any transport is selected; an invalid `PORT` string faults here. -/
def module_load (env : String → Option String) : Except String (String × Int) :=
  match PORT env with
  | some p => Except.ok (HOST env, p)
  | none => Except.error "ValueError: invalid literal for int() with base 10"

/-- The CORS middleware configuration added in HTTP mode
(server.py lines 165-170). -/
structure CORSConfig where
  allow_origins : List String
  allow_methods : List String
  allow_headers : List String
deriving DecidableEq, Repr

/-- The transport the `__main__` block enters: stdio, or an HTTP listener
on a host and port with a CORS configuration. -/
inductive Transport where
  | stdio : Transport
  | http : String → Int → CORSConfig → Transport
deriving DecidableEq, Repr

/-- The `__main__` block (server.py lines 158-172): module load first, then
`--stdio` in `sys.argv` selects stdio transport, otherwise the HTTP app is
started on `HOST`/`PORT` with permissive CORS. -/
def server_main (env : String → Option String) (argv : List String) :
    Except String Transport :=
  match module_load env with
  | Except.error e => Except.error e
  | Except.ok (host, port) =>
      if "--stdio" ∈ argv then Except.ok Transport.stdio
      else Except.ok (Transport.http host port
        { allow_origins := ["*"], allow_methods := ["*"], allow_headers := ["*"] })

/-- `VIEW_URI` (server.py line 25). -/
def VIEW_URI : String := "ui://qr-server/view.html"

/-- `EMBEDDED_VIEW_HTML` (server.py lines 32-99): the fixed HTML document,
line by line (the Python triple-quoted string has no trailing newline). -/
def EMBEDDED_VIEW_HTML : String := String.intercalate "\n" [
  "<!DOCTYPE html>",
  "<html>",
  "<head>",
  "  <meta name=\"color-scheme\" content=\"light dark\">",
  "  <style>",
  "    html, body \x7b",
  "      margin: 0;",
  "      padding: 0;",
  "      overflow: hidden;",
  "      background: transparent;",
  "    \x7d",
  "    body \x7b",
  "      display: flex;",
  "      justify-content: center;",
  "      align-items: center;",
  "      height: 340px;",
  "      width: 340px;",
  "    \x7d",
  "    img \x7b",
  "      width: 300px;",
  "      height: 300px;",
  "      border-radius: 8px;",
  "      box-shadow: 0 2px 8px rgba(0,0,0,0.1);",
  "    \x7d",
  "  </style>",
  "</head>",
  "<body>",
  "  <div id=\"qr\"></div>",
  "  <script type=\"module\">",
  "    import \x7b App \x7d from \"https://unpkg.com/@modelcontextprotocol/ext-apps@0.4.0/app-with-deps\";",
  "",
  "    const app = new App(\x7b name: \"QR View\", version: \"1.0.0\" \x7d);",
  "",
  "    app.ontoolresult = (\x7b content \x7d) => \x7b",
  "      const img = content?.find(c => c.type === \x27image\x27);",
  "      if (img) \x7b",
  "        const qrDiv = document.getElementById(\x27qr\x27);",
  "        qrDiv.innerHTML = \x27\x27;",
  "",
  "        const allowedTypes = [\x27image/png\x27, \x27image/jpeg\x27, \x27image/gif\x27];",
  "        const mimeType = allowedTypes.includes(img.mimeType) ? img.mimeType : \x27image/png\x27;",
  "",
  "        const image = document.createElement(\x27img\x27);",
  "        image.src = `data:$\x7bmimeType\x7d;base64,$\x7bimg.data\x7d`;",
  "        image.alt = \"QR Code\";",
  "        qrDiv.appendChild(image);",
  "      \x7d",
  "    \x7d;",
  "",
  "    function handleHostContextChanged(ctx) \x7b",
  "      if (ctx.safeAreaInsets) \x7b",
  "        document.body.style.paddingTop = `$\x7bctx.safeAreaInsets.top\x7dpx`;",
  "        document.body.style.paddingRight = `$\x7bctx.safeAreaInsets.right\x7dpx`;",
  "        document.body.style.paddingBottom = `$\x7bctx.safeAreaInsets.bottom\x7dpx`;",
  "        document.body.style.paddingLeft = `$\x7bctx.safeAreaInsets.left\x7dpx`;",
  "      \x7d",
  "    \x7d",
  "",
  "    app.onhostcontextchanged = handleHostContextChanged;",
  "",
  "    await app.connect();",
  "    const ctx = app.getHostContext();",
  "    if (ctx) \x7b",
  "      handleHostContextChanged(ctx);",
  "    \x7d",
  "  </script>",
  "</body>",
  "</html>"]

/-- The `view` resource handler (server.py lines 154-156): takes nothing and
returns the embedded HTML string. -/
def view (_ : Unit) : String := EMBEDDED_VIEW_HTML

/-- What `@mcp.resource(...)` registers for the view (server.py lines
149-153): the URI, the MIME type, the CSP resource-domain annotation, and
the handler. -/
structure ResourceRegistration where
  uri : String
  mime_type : String
  resourceDomains : List String
  handler : Unit → String

/-- The one resource registration of the server. -/
def view_resource : ResourceRegistration :=
  { uri := VIEW_URI, mime_type := "text/html;profile=mcp-app",
    resourceDomains := ["https://unpkg.com"], handler := view }

theorem b64CharVal_b64Char : ∀ n : Nat, n < 64 → b64CharVal (b64Char n) = some n := by decide

theorem b64Char_ne_pad : ∀ n : Nat, n < 64 → b64Char n ≠ '=' := by decide

theorem b64_roundtrip : ∀ bs : List (Fin 256), b64Decode (b64Encode bs) = some (bs.map Fin.val)
  | [] => rfl
  | [b0] => by
      have h0 := b0.isLt
      have e0 := b64CharVal_b64Char (b0.val / 4) (by omega)
      have e1 := b64CharVal_b64Char (b0.val % 4 * 16) (by omega)
      simp only [b64Encode, b64Decode, List.map]
      rw [if_pos (by simp), e0, e1]
      simp only [Option.some.injEq, List.cons.injEq, and_true]
      omega
  | [b0, b1] => by
      have h0 := b0.isLt
      have h1 := b1.isLt
      have e0 := b64CharVal_b64Char (b0.val / 4) (by omega)
      have e1 := b64CharVal_b64Char (b0.val % 4 * 16 + b1.val / 16) (by omega)
      have e2 := b64CharVal_b64Char (b1.val % 16 * 4) (by omega)
      have n2 : b64Char (b1.val % 16 * 4) ≠ '=' := b64Char_ne_pad _ (by omega)
      simp only [b64Encode, b64Decode, List.map]
      rw [if_neg (by simp [n2]), if_pos (by simp), e0, e1, e2]
      simp only [Option.some.injEq, List.cons.injEq, and_true]
      constructor
      · omega
      · omega
  | b0 :: b1 :: b2 :: rest => by
      have h0 := b0.isLt
      have h1 := b1.isLt
      have h2 := b2.isLt
      have ih := b64_roundtrip rest
      have e0 := b64CharVal_b64Char (b0.val / 4) (by omega)
      have e1 := b64CharVal_b64Char (b0.val % 4 * 16 + b1.val / 16) (by omega)
      have e2 := b64CharVal_b64Char (b1.val % 16 * 4 + b2.val / 64) (by omega)
      have e3 := b64CharVal_b64Char (b2.val % 64) (by omega)
      have n2 : b64Char (b1.val % 16 * 4 + b2.val / 64) ≠ '=' := b64Char_ne_pad _ (by omega)
      have n3 : b64Char (b2.val % 64) ≠ '=' := b64Char_ne_pad _ (by omega)
      simp only [b64Encode, b64Decode, List.map]
      rw [if_neg (by simp [n2]), if_neg (by simp [n3]), e0, e1, e2, e3, ih]
      simp only [Option.some.injEq, List.cons.injEq, and_true]
      refine ⟨by omega, by omega, by omega⟩

/-- A concrete instantiation of the library interface, used to evaluate the
claims at concrete inputs: best-fit always chooses version 5, rendering
always succeeds, and the PNG bytes are the three bytes of "Man". -/
def constLib : QRLib Unit :=
  { best_fit := fun _ _ => Except.ok 5,
    make_image := fun _ _ _ => Except.ok (),
    save_png := fun _ => Except.ok [77, 97, 110] }

/-- C1: `generate_qr` configures its encoder with the library constant
matching the upper-cased error-correction letter (L, M, Q or H, regardless
of input case), and with the medium constant `ERROR_CORRECT_M` for every
other string. -/
theorem generate_qr_error_correction_mapping (s t : String) (bs bd : Int) :
    (pyUpper s = "L" → (generate_qr_encoder t bs bd s).error_correction = ERROR_CORRECT_L) ∧
    (pyUpper s = "M" → (generate_qr_encoder t bs bd s).error_correction = ERROR_CORRECT_M) ∧
    (pyUpper s = "Q" → (generate_qr_encoder t bs bd s).error_correction = ERROR_CORRECT_Q) ∧
    (pyUpper s = "H" → (generate_qr_encoder t bs bd s).error_correction = ERROR_CORRECT_H) ∧
    (pyUpper s ≠ "L" → pyUpper s ≠ "M" → pyUpper s ≠ "Q" → pyUpper s ≠ "H" →
      (generate_qr_encoder t bs bd s).error_correction = ERROR_CORRECT_M) := by
  have key : (generate_qr_encoder t bs bd s).error_correction
      = (error_levels (pyUpper s)).getD ERROR_CORRECT_M := rfl
  refine ⟨?_, ?_, ?_, ?_, ?_⟩
  · intro h; rw [key, h]; rfl
  · intro h; rw [key, h]; rfl
  · intro h; rw [key, h]; rfl
  · intro h; rw [key, h]; rfl
  · intro h1 h2 h3 h4
    rw [key]
    simp [error_levels, h1, h2, h3, h4]

/-- C1 witness: the lower-case letter "l" selects the L constant. -/
theorem generate_qr_error_correction_mapping_witness :
    (generate_qr_encoder "hello" 10 4 "l").error_correction = ERROR_CORRECT_L :=
  (generate_qr_error_correction_mapping "l" "hello" 10 4).1 (by decide)

/-- C4: the encoder is constructed with the given box_size and border, is fed
exactly the given text, starts at the placeholder version 1, and
`make(fit=True)` replaces that version by whatever minimal fitting version
the library's best-fit search returns for the text. -/
theorem generate_qr_encoder_config_and_fit {Img : Type} (lib : QRLib Img)
    (t : String) (bs bd : Int) (ec : String) :
    (generate_qr_encoder t bs bd ec).box_size = bs ∧
    (generate_qr_encoder t bs bd ec).border = bd ∧
    (generate_qr_encoder t bs bd ec).data = [t] ∧
    (generate_qr_encoder t bs bd ec).version = 1 ∧
    (∀ v, lib.best_fit (resolve_error_correction ec) [t] = Except.ok v →
       QRCode.make_fit lib (generate_qr_encoder t bs bd ec) =
         Except.ok { generate_qr_encoder t bs bd ec with version := v }) := by
  refine ⟨rfl, rfl, rfl, rfl, ?_⟩
  intro v hv
  have hscrut : lib.best_fit (generate_qr_encoder t bs bd ec).error_correction
      (generate_qr_encoder t bs bd ec).data = Except.ok v := hv
  unfold QRCode.make_fit
  rw [hscrut]

/-- C4 witness: with a library whose best fit is version 5, the encoder ends
at version 5, not at the initial 1. -/
theorem generate_qr_encoder_config_and_fit_witness :
    QRCode.make_fit constLib (generate_qr_encoder "hello" 10 4 "M") =
      Except.ok { generate_qr_encoder "hello" 10 4 "M" with version := 5 } :=
  (generate_qr_encoder_config_and_fit constLib "hello" 10 4 "M").2.2.2.2 5 rfl

/-- C5: the view resource sits at the fixed URI, and its parameterless
handler returns the same byte-identical embedded HTML string on every call. -/
theorem view_resource_idempotent :
    view_resource.uri = "ui://qr-server/view.html" ∧
    (∀ u v : Unit, view_resource.handler u = view_resource.handler v) ∧
    (∀ u : Unit, view_resource.handler u = EMBEDDED_VIEW_HTML) :=
  ⟨rfl, fun _ _ => rfl, fun _ => rfl⟩

/-- C7: HOST is the HOST environment variable when set, "0.0.0.0" otherwise;
PORT is the parsed integer value of the PORT environment variable when set,
3001 otherwise. -/
theorem host_port_from_environment (env : String → Option String) :
    (env "HOST" = none → HOST env = "0.0.0.0") ∧
    (∀ h, env "HOST" = some h → HOST env = h) ∧
    (env "PORT" = none → PORT env = some 3001) ∧
    (∀ s n, env "PORT" = some s → pyInt s = some n → PORT env = some n) := by
  refine ⟨?_, ?_, ?_, ?_⟩
  · intro h; unfold HOST; rw [h]; rfl
  · intro x h; unfold HOST; rw [h]; rfl
  · intro h; unfold PORT; rw [h]; rfl
  · intro s n hs hn; unfold PORT; rw [hs]; exact hn

/-- C7 witness: with an empty environment the defaults are used. -/
theorem host_port_from_environment_witness :
    HOST (fun _ => none) = "0.0.0.0" ∧ PORT (fun _ => none) = some 3001 :=
  ⟨(host_port_from_environment (fun _ => none)).1 rfl,
   (host_port_from_environment (fun _ => none)).2.2.1 rfl⟩

/-- C8: the omitted parameters of `generate_qr` default to the documented
URL, box_size 10, border 4, error correction "M", black on white; in
particular a zero-argument call encodes the default URL at the medium
error-correction constant. -/
theorem generate_qr_defaults {Img : Type} (lib : QRLib Img) :
    generate_qr lib =
      generate_qr lib "https://modelcontextprotocol.io" 10 4 "M" "black" "white" ∧
    (generate_qr_encoder "https://modelcontextprotocol.io" 10 4 "M").error_correction
      = ERROR_CORRECT_M ∧
    (generate_qr_encoder "https://modelcontextprotocol.io" 10 4 "M").data
      = ["https://modelcontextprotocol.io"] ∧
    (generate_qr_encoder "https://modelcontextprotocol.io" 10 4 "M").box_size = 10 ∧
    (generate_qr_encoder "https://modelcontextprotocol.io" 10 4 "M").border = 4 :=
  ⟨rfl, rfl, rfl, rfl, rfl⟩

/-- C9: `generate_qr` is deterministic: two calls against the same library
behaviour with equal argument values return equal results. -/
theorem generate_qr_deterministic {Img : Type} (lib : QRLib Img)
    (t1 t2 : String) (bs1 bs2 bd1 bd2 : Int) (ec1 ec2 fc1 fc2 bc1 bc2 : String)
    (ht : t1 = t2) (hbs : bs1 = bs2) (hbd : bd1 = bd2) (hec : ec1 = ec2)
    (hfc : fc1 = fc2) (hbc : bc1 = bc2) :
    generate_qr lib t1 bs1 bd1 ec1 fc1 bc1 = generate_qr lib t2 bs2 bd2 ec2 fc2 bc2 := by
  subst ht; subst hbs; subst hbd; subst hec; subst hfc; subst hbc
  rfl

/-- C9 witness: two equal-argument calls at concrete values agree. -/
theorem generate_qr_deterministic_witness :
    generate_qr constLib "a" 10 4 "M" "black" "white" =
      generate_qr constLib "a" 10 4 "M" "black" "white" :=
  generate_qr_deterministic constLib "a" "a" 10 10 4 4 "M" "M" "black" "black"
    "white" "white" rfl rfl rfl rfl rfl rfl

/-- C6: once module load succeeded, exactly one transport mode is entered:
stdio when "--stdio" is among the command-line arguments, otherwise an HTTP
listener on the configured host and port with permissive CORS. -/
theorem server_main_transport_switch (env : String → Option String)
    (argv : List String) (host : String) (port : Int)
    (h : module_load env = Except.ok (host, port)) :
    ("--stdio" ∈ argv → server_main env argv = Except.ok Transport.stdio) ∧
    ("--stdio" ∉ argv → server_main env argv = Except.ok (Transport.http host port
        { allow_origins := ["*"], allow_methods := ["*"], allow_headers := ["*"] })) ∧
    ¬(server_main env argv = Except.ok Transport.stdio ∧
      server_main env argv = Except.ok (Transport.http host port
        { allow_origins := ["*"], allow_methods := ["*"], allow_headers := ["*"] })) := by
  by_cases hmem : "--stdio" ∈ argv
  · have hred : server_main env argv = Except.ok Transport.stdio := by
      simp [server_main, h, hmem]
    refine ⟨fun _ => hred, fun hn => absurd hmem hn, ?_⟩
    rintro ⟨-, h2⟩
    rw [hred] at h2
    simp at h2
  · have hred : server_main env argv = Except.ok (Transport.http host port
        { allow_origins := ["*"], allow_methods := ["*"], allow_headers := ["*"] }) := by
      simp [server_main, h, hmem]
    refine ⟨fun hy => absurd hy hmem, fun _ => hred, ?_⟩
    rintro ⟨h1, -⟩
    rw [hred] at h1
    simp at h1

/-- C6 witness: with an empty environment, `--stdio` selects stdio and its
absence selects the HTTP listener on the default host and port. -/
theorem server_main_transport_switch_witness :
    server_main (fun _ => none) ["--stdio"] = Except.ok Transport.stdio ∧
    server_main (fun _ => none) [] = Except.ok (Transport.http "0.0.0.0" 3001
      { allow_origins := ["*"], allow_methods := ["*"], allow_headers := ["*"] }) :=
  ⟨(server_main_transport_switch (fun _ => none) ["--stdio"] "0.0.0.0" 3001 rfl).1
      (by simp),
   (server_main_transport_switch (fun _ => none) [] "0.0.0.0" 3001 rfl).2.1
      (by simp)⟩

/-- C2: every normal return of `generate_qr` is a one-element list whose
record has type "image", mimeType "image/png", and as data the base64
encoding of the PNG bytes the library serialized; that data decodes back to
exactly those bytes. -/
theorem generate_qr_output_shape {Img : Type} (lib : QRLib Img)
    (t : String) (bs bd : Int) (ec fc bc : String) (r : List ImageContent)
    (hok : generate_qr lib t bs bd ec fc bc = Except.ok r) :
    ∃ (qr2 : QRCode) (img : Img) (png : List (Fin 256)),
      QRCode.make_fit lib (generate_qr_encoder t bs bd ec) = Except.ok qr2 ∧
      lib.make_image qr2 fc bc = Except.ok img ∧
      lib.save_png img = Except.ok png ∧
      r = [{ type := "image", data := String.mk (b64Encode png),
             mimeType := "image/png" }] ∧
      b64Decode (String.mk (b64Encode png)).toList = some (png.map Fin.val) := by
  cases h1 : QRCode.make_fit lib (generate_qr_encoder t bs bd ec) with
  | error e => simp [generate_qr, h1] at hok
  | ok qr2 =>
    cases h2 : lib.make_image qr2 fc bc with
    | error e => simp [generate_qr, h1, h2] at hok
    | ok img =>
      cases h3 : lib.save_png img with
      | error e => simp [generate_qr, h1, h2, h3] at hok
      | ok png =>
        simp only [generate_qr, h1, h2, h3] at hok
        exact ⟨qr2, img, png, rfl, h2, h3, (Except.ok.inj hok).symm, b64_roundtrip png⟩

/-- C2 witness: at a concrete library whose PNG bytes are those of "Man",
the returned record carries base64 data "TWFu", which decodes back. -/
theorem generate_qr_output_shape_witness :
    ∃ (qr2 : QRCode) (img : Unit) (png : List (Fin 256)),
      QRCode.make_fit constLib (generate_qr_encoder "hello" 10 4 "M") = Except.ok qr2 ∧
      constLib.make_image qr2 "black" "white" = Except.ok img ∧
      constLib.save_png img = Except.ok png ∧
      [({ type := "image", data := "TWFu", mimeType := "image/png" } : ImageContent)] =
        [{ type := "image", data := String.mk (b64Encode png),
           mimeType := "image/png" }] ∧
      b64Decode (String.mk (b64Encode png)).toList = some (png.map Fin.val) :=
  generate_qr_output_shape constLib "hello" 10 4 "M" "black" "white"
    [{ type := "image", data := "TWFu", mimeType := "image/png" }] rfl

/-- C3: `generate_qr` distinguishes no error path: it fails with exactly the
first library fault, unchanged, and returns normally exactly when every
library call it makes succeeds. -/
theorem generate_qr_fault_propagation {Img : Type} (lib : QRLib Img)
    (t : String) (bs bd : Int) (ec fc bc : String) :
    (∀ e : String,
      generate_qr lib t bs bd ec fc bc = Except.error e ↔
        (QRCode.make_fit lib (generate_qr_encoder t bs bd ec) = Except.error e ∨
         (∃ qr2, QRCode.make_fit lib (generate_qr_encoder t bs bd ec) = Except.ok qr2 ∧
            lib.make_image qr2 fc bc = Except.error e) ∨
         (∃ qr2 img, QRCode.make_fit lib (generate_qr_encoder t bs bd ec) = Except.ok qr2 ∧
            lib.make_image qr2 fc bc = Except.ok img ∧
            lib.save_png img = Except.error e))) ∧
    ((∃ r, generate_qr lib t bs bd ec fc bc = Except.ok r) ↔
      (∃ qr2 img png,
        QRCode.make_fit lib (generate_qr_encoder t bs bd ec) = Except.ok qr2 ∧
        lib.make_image qr2 fc bc = Except.ok img ∧
        lib.save_png img = Except.ok png)) := by
  cases h1 : QRCode.make_fit lib (generate_qr_encoder t bs bd ec) with
  | error e1 =>
      constructor
      · intro e
        simp [generate_qr, h1]
      · simp [generate_qr, h1]
  | ok qr2 =>
      cases h2 : lib.make_image qr2 fc bc with
      | error e2 =>
          constructor
          · intro e
            simp [generate_qr, h1, h2]
          · simp [generate_qr, h1, h2]
      | ok img =>
          cases h3 : lib.save_png img with
          | error e3 =>
              constructor
              · intro e
                simp [generate_qr, h1, h2, h3]
              · simp [generate_qr, h1, h2, h3]
          | ok png =>
              constructor
              · intro e
                simp [generate_qr, h1, h2, h3]
              · simp [generate_qr, h1, h2, h3]

/-- C10: an unparsable PORT environment value makes the program fault at
module load, before any transport is selected, whatever the argument list. -/
theorem invalid_port_faults_at_module_load (env : String → Option String)
    (s : String) (hset : env "PORT" = some s) (hbad : pyInt s = none) :
    module_load env =
      Except.error "ValueError: invalid literal for int() with base 10" ∧
    ∀ argv : List String, server_main env argv =
      Except.error "ValueError: invalid literal for int() with base 10" := by
  have hp : PORT env = none := by unfold PORT; rw [hset]; exact hbad
  have hm : module_load env =
      Except.error "ValueError: invalid literal for int() with base 10" := by
    unfold module_load; rw [hp]
  exact ⟨hm, fun argv => by unfold server_main; rw [hm]⟩

/-- C10 witness: PORT set to "not-a-number" faults for any argument list. -/
theorem invalid_port_faults_at_module_load_witness :
    module_load (fun v => if v = "PORT" then some "not-a-number" else none) =
      Except.error "ValueError: invalid literal for int() with base 10" ∧
    ∀ argv : List String,
      server_main (fun v => if v = "PORT" then some "not-a-number" else none) argv =
        Except.error "ValueError: invalid literal for int() with base 10" :=
  invalid_port_faults_at_module_load
    (fun v => if v = "PORT" then some "not-a-number" else none)
    "not-a-number" rfl rfl
